import Mathlib

/-!
Verification of the Hackflight flight-control core.

The development shallowly embeds the two control-law variants and the
arming/calibration state machine of the repository:

* `Stabilizer` — the floating-point PID stabilizer of `stabilizer.hpp`
  (src/unnamed/part_001), embedded over `ℚ`.  The C++ `float` values are
  modelled as exact rationals; every operation the code performs on them
  (`+`, `-`, `*`, `/` by constants, comparisons, `fabs`) is embedded as the
  corresponding exact rational operation.  The constant `M_PI`, used only
  through `degreesToRadians`, is an irrational constant approximated by a
  machine value in the code; it is carried as an explicit rational
  parameter `piApprox`.
* `Stabilize` — the fixed-point PID stabilizer of `stabilize.cpp`
  (src/unnamed/part_002), embedded over `ℤ`.  C integer division truncates
  toward zero and is embedded as `Int.tdiv`; the arithmetic right shift
  `>>` on non-negative and negative values floors, embedded as `asr`
  (division by a power of two rounding down).  The `int32_t` intermediates
  never approach `2^31` for the `int16_t`-ranged inputs the firmware
  feeds them, so unbounded `ℤ` is a faithful model of the arithmetic.
* `Controller` — the simulator receiver of `sim.hpp` (src/unnamed/part_000).
* `rcTick` / `imuTick` / `hfUpdate` — the per-call state effects of
  `Hackflight::update` in `src/firmware/hackflight.cpp`.
-/

namespace Hackflight

/-! ## Filter helpers

`filter.hpp` is a dependency of the repository that is not under src/.
The three helpers below are therefore modelled from the spec. -/

namespace Filter

/-- Modelled from the spec: `Filter::constrainAbs` (filter.hpp, not under
src/) clamps a value to the symmetric interval `[-lim, +lim]`; the spec
describes it as "clamp to `[-windupBound, +windupBound]`". -/
def constrainAbs (v lim : ℚ) : ℚ :=
  if v < -lim then -lim else if v > lim then lim else v

/-- Modelled from the spec: `Filter::complementary` (filter.hpp, not under
src/) is the complementary blend `a·c + b·(1−c)`; the spec describes it as a
"weighted combination of two estimates whose weights sum to one", weighted
`c` toward the first argument and `1−c` toward the second. -/
def complementary (a b c : ℚ) : ℚ := a * c + b * (1 - c)

/-- Modelled from the spec: `Filter::max` (filter.hpp, not under src/) is
the larger of its two arguments. -/
def max (a b : ℚ) : ℚ := if a > b then a else b

end Filter

/-! ## Floating-point stabilizer (`Stabilizer`, src/unnamed/part_001) -/

namespace Stabilizer

/-- The six PID gains passed to the `Stabilizer` constructor. -/
structure Gains where
  levelP : ℚ
  gyroCyclicP : ℚ
  gyroCyclicI : ℚ
  gyroCyclicD : ℚ
  gyroYawP : ℚ
  gyroYawI : ℚ

/-- `gyroWindupMax` (part_001 line 65): integral windup bound. -/
def gyroWindupMax : ℚ := 16

/-- `bigGyroDegreesPerSecond` (part_001 line 66). -/
def bigGyroDegreesPerSecond : ℚ := 40

/-- `bigYawDemand` (part_001 line 67): 0.1f. -/
def bigYawDemand : ℚ := 1/10

/-- `maxArmingAngleDegrees` (part_001 line 68). -/
def maxArmingAngleDegrees : ℚ := 25

/-- The mutable members of `Stabilizer`.  The C++ arrays `lastGyro[2]`,
`gyroDelta1[2]`, `gyroDelta2[2]` are two-slot (roll and pitch only); the
array `errorGyroI[3]` covers all three axes (roll = 0, pitch = 1, yaw = 2). -/
structure State where
  gains : Gains
  lastGyro : Fin 2 → ℚ
  gyroDelta1 : Fin 2 → ℚ
  gyroDelta2 : Fin 2 → ℚ
  errorGyroI : Fin 3 → ℚ
  bigGyroRate : ℚ
  maxArmingAngle : ℚ

/-- `degreesToRadians` (part_001 lines 77-80), with `M_PI` as the explicit
parameter `piApprox`. -/
def degreesToRadians (piApprox deg : ℚ) : ℚ := piApprox * deg / 180

/-- The value stored into `errorGyroI[axis]` by `computeITermGyro`
(part_001 lines 82-94): the accumulated error clamped to
`±gyroWindupMax`, then reset to 0 on a quick gyro change or a large yaw
command. -/
def itermNew (s : State) (rateP rcCommand : ℚ) (gyro : Fin 3 → ℚ) (axis : Fin 3) : ℚ :=
  let error := rcCommand * rateP - gyro axis
  let clamped := Filter.constrainAbs (s.errorGyroI axis + error) gyroWindupMax
  if s.bigGyroRate < |gyro axis| ∨ (axis = 2 ∧ bigYawDemand < |rcCommand|) then 0 else clamped

/-- `computeITermGyro` (part_001 lines 82-94): returns the I term
`errorGyroI[axis] * rateI` and the state with `errorGyroI[axis]` updated. -/
def computeITermGyro (s : State) (rateP rateI rcCommand : ℚ) (gyro : Fin 3 → ℚ)
    (axis : Fin 3) : ℚ × State :=
  (itermNew s rateP rcCommand gyro axis * rateI,
   { s with errorGyroI := Function.update s.errorGyroI axis (itermNew s rateP rcCommand gyro axis) })

/-- `computePid` (part_001 lines 96-101). -/
def computePid (rateP PTerm ITerm DTerm : ℚ) (gyro : Fin 3 → ℚ) (axis : Fin 3) : ℚ :=
  (PTerm - gyro axis * rateP) + ITerm - DTerm

/-- `computeCyclicPid` (part_001 lines 104-123), for `imuAxis` roll (0) or
pitch (1).  The derivative history is read before it is overwritten, as in
the source. -/
def computeCyclicPid (s : State) (rcCommand prop : ℚ) (eulerAngles gyro : Fin 3 → ℚ)
    (imuAxis : Fin 2) : ℚ × State :=
  let ax : Fin 3 := Fin.castLE (by norm_num) imuAxis
  let r1 := computeITermGyro s s.gains.gyroCyclicP s.gains.gyroCyclicI rcCommand gyro ax
  let ITermGyro := r1.1
  let s1 := r1.2
  let PTermEuler := (rcCommand - eulerAngles ax) * s.gains.levelP
  let PTerm := Filter.complementary rcCommand PTermEuler prop
  let ITerm := ITermGyro * prop
  let gyroDelta := gyro ax - s1.lastGyro imuAxis
  let gyroDeltaSum := s1.gyroDelta1 imuAxis + s1.gyroDelta2 imuAxis + gyroDelta
  let s2 := { s1 with
    lastGyro := Function.update s1.lastGyro imuAxis (gyro ax),
    gyroDelta2 := Function.update s1.gyroDelta2 imuAxis (s1.gyroDelta1 imuAxis),
    gyroDelta1 := Function.update s1.gyroDelta1 imuAxis gyroDelta }
  let DTerm := gyroDeltaSum * s.gains.gyroCyclicD
  (computePid s.gains.gyroCyclicP PTerm ITerm DTerm gyro ax, s2)

/-- `demands_t` (datatypes.hpp): the three control-law axes.  The throttle
member of the C++ struct is neither read nor written by the stabilizer and
is omitted. -/
structure demands_t where
  roll : ℚ
  pitch : ℚ
  yaw : ℚ

/-- The cyclic-demand proportion computed at the top of `updateDemands`
(part_001 line 154): `Filter::max(fabs(roll), fabs(pitch)) / 0.5f`.
Note: the source applies no clamping to this value. -/
def cyclicProp (roll pitch : ℚ) : ℚ := Filter.max |roll| |pitch| / (1/2)

/-- `updateDemands` (part_001 lines 151-166).  The final yaw constraint of
the source computes its bound from `demands.yaw` after `demands.yaw` has
already been overwritten by the PID output, exactly as in line 165. -/
def updateDemands (s : State) (eulerAngles gyroRates : Fin 3 → ℚ)
    (demands : demands_t) : demands_t × State :=
  let prop := cyclicProp demands.roll demands.pitch
  let rRoll := computeCyclicPid s demands.roll prop eulerAngles gyroRates 0
  let rPitch := computeCyclicPid rRoll.2 demands.pitch prop eulerAngles gyroRates 1
  let rYaw := computeITermGyro rPitch.2 s.gains.gyroYawP s.gains.gyroYawI demands.yaw gyroRates 2
  let yawPid := computePid s.gains.gyroYawP demands.yaw rYaw.1 0 gyroRates 2
  let yawOut := Filter.constrainAbs yawPid (1/10 + |yawPid|)
  (⟨rRoll.1, rPitch.1, yawOut⟩, rYaw.2)

/-- `resetIntegral` (part_001 lines 168-173): zeroes the three
`errorGyroI` entries and nothing else. -/
def resetIntegral (s : State) : State :=
  { s with errorGyroI := fun _ => 0 }

/-- `init` (part_001 lines 134-149): zeroes the derivative history,
converts the degree thresholds to radians, and resets the integral. -/
def init (piApprox : ℚ) (s : State) : State :=
  resetIntegral { s with
    lastGyro := fun _ => 0,
    gyroDelta1 := fun _ => 0,
    gyroDelta2 := fun _ => 0,
    bigGyroRate := degreesToRadians piApprox bigGyroDegreesPerSecond,
    maxArmingAngle := degreesToRadians piApprox maxArmingAngleDegrees }

/-- One control-tick input to `updateDemands`. -/
structure Input where
  eulerAngles : Fin 3 → ℚ
  gyroRates : Fin 3 → ℚ
  demands : demands_t

/-- A sequence of `updateDemands` calls, threading the stabilizer state. -/
def runUpdates (s : State) : List Input → State
  | [] => s
  | i :: rest => runUpdates (updateDemands s i.eulerAngles i.gyroRates i.demands).2 rest

end Stabilizer

/-! ## Fixed-point stabilizer (`Stabilize`, src/unnamed/part_002) -/

namespace Stabilize

/-- The mutable members of `Stabilize` (declared in hackflight.hpp, used in
part_002): `errorGyroI[3]`, `errorAngleI[2]`, three-slot derivative
history, per-axis gains, and the output array `axisPID[3]`. -/
structure State where
  rate_p : Fin 3 → ℤ
  rate_i : Fin 3 → ℤ
  rate_d : Fin 3 → ℤ
  errorGyroI : Fin 3 → ℤ
  errorAngleI : Fin 2 → ℤ
  lastGyro : Fin 3 → ℤ
  delta1 : Fin 3 → ℤ
  delta2 : Fin 3 → ℤ
  axisPID : Fin 3 → ℤ

/-- Board-configuration constants read by `Stabilize::update`
(`CONFIG_MAX_ANGLE_INCLINATION`, `CONFIG_LEVEL_P`, `CONFIG_LEVEL_I` from
config.hpp, not under src/); carried as parameters since their values do
not affect the verified properties. -/
structure Config where
  maxAngleInclination : ℤ
  levelP : ℤ
  levelI : ℤ

/-- The `constrain` macro of part_002 line 45. -/
def constrain (val lo hi : ℤ) : ℤ :=
  if val < lo then lo else if val > hi then hi else val

/-- Arithmetic right shift by `n` bits on `int32_t`: floor division by
`2^n`. -/
def asr (a : ℤ) (n : ℕ) : ℤ := Int.fdiv a (2 ^ n)

/-- The value stored into `errorGyroI[axis]` by `Stabilize::update`
(part_002 lines 51-58): the accumulated error clamped to `±16000`, then
reset to 0 on a large gyro reading or (yaw only) a large yaw command.
C integer division truncates toward zero (`Int.tdiv`). -/
def gyroINew (s : State) (rcCommand gyroADC : Fin 3 → ℤ) (axis : Fin 3) : ℤ :=
  let error := Int.tdiv (rcCommand axis * 10 * 8) (s.rate_p axis) - gyroADC axis
  let clamped := constrain (s.errorGyroI axis + error) (-16000) 16000
  if 640 < |gyroADC axis| ∨ (axis = 2 ∧ 100 < |rcCommand axis|) then 0 else clamped

/-- One iteration of the per-axis loop of `Stabilize::update` (part_002
lines 49-92).  `rcCommand` indices follow DEMAND_ROLL = 0, DEMAND_PITCH = 1,
DEMAND_YAW = 2 (the throttle entry of `rcCommand[4]` is unused here). -/
def axisUpdate (cfg : Config) (rcCommand gyroADC angle : Fin 3 → ℤ)
    (s : State) (axis : Fin 3) : State :=
  let PTermGYRO := rcCommand axis
  let eG := gyroINew s rcCommand gyroADC axis
  let s1 : State := { s with errorGyroI := Function.update s.errorGyroI axis eG }
  let ITermGYRO := asr (Int.tdiv eG 125 * s1.rate_i axis) 6
  let res : ℤ × ℤ × State :=
    if h : (axis : ℕ) < 2 then
      let axis2 : Fin 2 := ⟨axis, h⟩
      let errorAngle :=
        constrain (2 * rcCommand axis) (-cfg.maxAngleInclination) cfg.maxAngleInclination
          - angle axis
      let PTermACC := Int.tdiv (errorAngle * cfg.levelP) 100
      let eA := constrain (s1.errorAngleI axis2 + errorAngle) (-10000) 10000
      let s2 : State := { s1 with errorAngleI := Function.update s1.errorAngleI axis2 eA }
      let ITermACC := asr (eA * cfg.levelI) 12
      let prop := Max.max |rcCommand 1| |rcCommand 0|
      (Int.tdiv (PTermACC * (500 - prop) + PTermGYRO * prop) 500,
       Int.tdiv (ITermACC * (500 - prop) + ITermGYRO * prop) 500,
       s2)
    else
      (PTermGYRO, ITermGYRO, s1)
  let sMid := res.2.2
  let PTerm := res.1 - Int.tdiv (Int.tdiv (gyroADC axis * s.rate_p axis) 10) 8
  let delta := gyroADC axis - sMid.lastGyro axis
  let deltaSum := sMid.delta1 axis + sMid.delta2 axis + delta
  let DTerm := Int.tdiv (deltaSum * s.rate_d axis) 32
  { sMid with
    lastGyro := Function.update sMid.lastGyro axis (gyroADC axis),
    delta2 := Function.update sMid.delta2 axis (sMid.delta1 axis),
    delta1 := Function.update sMid.delta1 axis delta,
    axisPID := Function.update sMid.axisPID axis (PTerm + res.2.1 - DTerm) }

/-- `Stabilize::update` (part_002 lines 47-97): the axis loop for axes 0,
1, 2 in order, followed by the yaw-jump clamp, whose bound is computed from
the unmodified input `rcCommand[DEMAND_YAW]`. -/
def update (cfg : Config) (s : State) (rcCommand gyroADC angle : Fin 3 → ℤ) : State :=
  let s3 := List.foldl (axisUpdate cfg rcCommand gyroADC angle) s [0, 1, 2]
  let yawClamped := constrain (s3.axisPID 2) (-100 - |rcCommand 2|) (100 + |rcCommand 2|)
  { s3 with axisPID := Function.update s3.axisPID 2 yawClamped }

/-- `Stabilize::resetIntegral` (part_002 lines 99-106): zeroes the three
`errorGyroI` entries and the two `errorAngleI` entries, nothing else. -/
def resetIntegral (s : State) : State :=
  { s with errorGyroI := fun _ => 0, errorAngleI := fun _ => 0 }

/-- `Stabilize::init` (part_002 lines 22-43): zeroes the derivative
history, loads the configured gains (`CONFIG_RATE_PITCHROLL_*`,
`CONFIG_YAW_*` carried as parameters), and resets the integrals. -/
def init (ratePitchrollP ratePitchrollI ratePitchrollD yawP yawI : ℤ) (s : State) : State :=
  resetIntegral { s with
    lastGyro := fun _ => 0,
    delta1 := fun _ => 0,
    delta2 := fun _ => 0,
    rate_p := fun axis => if axis = 2 then yawP else ratePitchrollP,
    rate_i := fun axis => if axis = 2 then yawI else ratePitchrollI,
    rate_d := fun axis => if axis = 2 then 0 else ratePitchrollD }

/-- One control-tick input to `Stabilize::update`. -/
structure Input where
  rcCommand : Fin 3 → ℤ
  gyroADC : Fin 3 → ℤ
  angle : Fin 3 → ℤ

/-- A sequence of `Stabilize::update` calls, threading the state. -/
def run (cfg : Config) (s : State) : List Input → State
  | [] => s
  | i :: rest => run cfg (update cfg s i.rcCommand i.gyroADC i.angle) rest

end Stabilize

/-! ## Simulator receiver (`Controller`, src/unnamed/part_000) -/

namespace Controller

/-- The `Controller` members read by `arming`/`disarming`: the `_ready`
startup flag and the raw throttle channel value `rawvals[CHANNEL_THROTTLE]`
(a normalized float, modelled over `ℚ`). -/
structure State where
  ready : Bool
  rawThrottle : ℚ

/-- `Controller::arming` (part_000 lines 38-47): returns false on the first
call (noisy startup throttle), thereafter true exactly when the raw
throttle exceeds 0.1; always marks the controller ready. -/
def arming (s : State) : Bool × State :=
  ((if s.ready then (if s.rawThrottle > 1/10 then true else false) else false),
   { s with ready := true })

/-- `Controller::disarming` (part_000 lines 49-53): returns false
unconditionally and leaves the state untouched. -/
def disarming (s : State) : Bool × State := (false, s)

end Controller

/-! ## Flight-mode state machine (`Hackflight::update`, src/firmware/hackflight.cpp)

The receiver object (`rc`, receiver.hpp, not under src/) is external to
the core: its per-tick outputs — `throttleIsDown()`, `changed()`,
`sticks`, `auxState()`, `command` — enter the model as inputs of the tick
functions.  The stick-gesture codes `THR_LO + YAW_LO + PIT_CE + ROL_CE`
etc. are sums of per-channel two-bit codes (one of LO/CE/HI per channel),
an injective encoding; a gesture code is modelled as a record of four
three-valued channel positions, so equality of codes is equality of
records. -/

/-- One classified channel position of a stick gesture. -/
inductive StickPos
  | lo
  | ce
  | hi
deriving DecidableEq

/-- A stick-gesture code: one position per channel. -/
structure Sticks where
  thr : StickPos
  yaw : StickPos
  pit : StickPos
  rol : StickPos
deriving DecidableEq

/-- `THR_LO + YAW_LO + PIT_CE + ROL_CE`: the disarm gesture
(hackflight.cpp line 120). -/
def disarmSticks : Sticks := ⟨.lo, .lo, .ce, .ce⟩

/-- `THR_LO + YAW_LO + PIT_LO + ROL_CE`: the gyro-recalibration gesture
(hackflight.cpp line 129). -/
def gyroCalSticks : Sticks := ⟨.lo, .lo, .lo, .ce⟩

/-- `THR_LO + YAW_HI + PIT_CE + ROL_CE`: the arm gesture
(hackflight.cpp line 133). -/
def armSticks : Sticks := ⟨.lo, .hi, .ce, .ce⟩

/-- `THR_HI + YAW_LO + PIT_LO + ROL_CE`: the accelerometer-calibration
gesture (hackflight.cpp line 142). -/
def accCalSticks : Sticks := ⟨.hi, .lo, .lo, .ce⟩

/-- The flight state mutated by `Hackflight::update`: the members of the
`Hackflight` object together with the static locals of `update`
(`accCalibrated`, `calibratingA`, `taskOrder`, the blink toggle `on`). -/
structure HState where
  armed : Bool
  calibratingG : ℕ
  calibratingA : ℕ
  accCalibrated : Bool
  haveSmallAngle : Bool
  blinkOn : Bool
  taskOrder : ℕ
  stab : Stabilize.State
  calibratingGyroCycles : ℕ
  calibratingAccCycles : ℕ

/-- The receiver outputs consumed by one receiver-update tick. -/
structure RcInput where
  throttleIsDown : Bool
  changed : Bool
  sticks : Sticks
  auxState : ℕ

/-- The sensor inputs consumed by one IMU tick: the raw gyro, the Euler
angles computed by the external IMU object, the exponential-mapped RC
commands, and whether the slow accelerometer-calibration task is due. -/
structure ImuInput where
  gyroADC : Fin 3 → ℤ
  angle : Fin 3 → ℤ
  rcCommand : Fin 3 → ℤ
  accelCalTaskDue : Bool

/-- The receiver-update branch of `Hackflight::update` (hackflight.cpp
lines 100-151), restricted to its state effects: the unconditional
ground-idle integral reset, then — only when the gesture changed — the
disarm / gyro-calibration / arm / accel-calibration actions. -/
def rcTick (s : HState) (inp : RcInput) : HState :=
  let s0 := if inp.throttleIsDown then { s with stab := Stabilize.resetIntegral s.stab } else s
  if inp.changed then
    if s0.armed then
      if inp.sticks = disarmSticks then { s0 with armed := false } else s0
    else
      let s1 := if inp.sticks = gyroCalSticks
                then { s0 with calibratingG := s0.calibratingGyroCycles } else s0
      let s2 := if inp.sticks = armSticks ∧ s1.calibratingG = 0 ∧ s1.accCalibrated = true
                   ∧ inp.auxState = 0 ∧ s1.armed = false
                then { s1 with armed := true } else s1
      if inp.sticks = accCalSticks
      then { s2 with calibratingA := s2.calibratingAccCycles } else s2
  else s0

/-- The IMU branch of `Hackflight::update` (hackflight.cpp lines 166-227),
restricted to its state effects: decrement the calibration countdowns,
recompute `haveSmallAngle`, run the periodic accelerometer-calibration
validity check, and run the fixed-point stability PID update. -/
def imuTick (cfg : Stabilize.Config) (smallAngleLimit : ℤ) (s : HState)
    (inp : ImuInput) : HState :=
  let s1 := { s with
    calibratingA := if 0 < s.calibratingA then s.calibratingA - 1 else s.calibratingA,
    calibratingG := if 0 < s.calibratingG then s.calibratingG - 1 else s.calibratingG }
  let s2 := { s1 with
    haveSmallAngle := decide (|inp.angle 0| < smallAngleLimit ∧ |inp.angle 1| < smallAngleLimit) }
  let s3 := if inp.accelCalTaskDue then
              if s2.haveSmallAngle = false then
                { s2 with accCalibrated := false, blinkOn := !s2.blinkOn }
              else
                { s2 with accCalibrated := true }
            else s2
  { s3 with stab := Stabilize.update cfg s3.stab inp.rcCommand inp.gyroADC inp.angle }

/-- One call of `Hackflight::update` (hackflight.cpp lines 92-230):
the receiver branch when the RC task is due (otherwise the round-robin
extra-task index advances), then the IMU branch when the IMU task is due.
`rcDue` models `rcTask.checkAndUpdate(currentTime) || rcSerialReady`. -/
def hfUpdate (cfg : Stabilize.Config) (smallAngleLimit : ℤ) (taskCount : ℕ)
    (s : HState) (rcDue : Bool) (rcIn : RcInput) (imuDue : Bool) (imuIn : ImuInput) : HState :=
  let s1 := if rcDue then rcTick s rcIn
            else { s with taskOrder := if taskCount ≤ s.taskOrder + 1 then 0 else s.taskOrder + 1 }
  if imuDue then imuTick cfg smallAngleLimit s1 imuIn else s1

/-! ## Auxiliary definitions for the verification -/

/-- The blend proportion as the spec words it (for comparison with the
source's `cyclicProp`): `max(|roll|, |pitch|) / deadbandNorm`, clamped to
`[0, 1]`. -/
def Stabilizer.cyclicPropSpec (roll pitch : ℚ) : ℚ :=
  min 1 (Max.max 0 (Filter.max |roll| |pitch| / (1/2)))

/-- A concrete fixed-point stabilizer state with nonzero controller
memory, used to instantiate the universally quantified theorems. -/
def sampleStabState : Stabilize.State :=
  { rate_p := fun _ => 40, rate_i := fun _ => 30, rate_d := fun _ => 23,
    errorGyroI := fun _ => 7, errorAngleI := fun _ => 5,
    lastGyro := fun _ => 3, delta1 := fun _ => 2, delta2 := fun _ => 1,
    axisPID := fun _ => 0 }

/-- A concrete disarmed flight state satisfying all arming guards. -/
def sampleHState : HState :=
  { armed := false, calibratingG := 0, calibratingA := 0, accCalibrated := true,
    haveSmallAngle := true, blinkOn := false, taskOrder := 0,
    stab := sampleStabState, calibratingGyroCycles := 100, calibratingAccCycles := 50 }

/-- The sample flight state, armed. -/
def sampleArmedHState : HState := { sampleHState with armed := true }

/-- A concrete stabilizer configuration for instantiating the firmware
tick functions. -/
def sampleConfig : Stabilize.Config :=
  { maxAngleInclination := 500, levelP := 90, levelI := 10 }

/-- A concrete IMU-tick input. -/
def sampleImuInput : ImuInput :=
  { gyroADC := fun _ => 0, angle := fun _ => 0, rcCommand := fun _ => 0,
    accelCalTaskDue := false }

/-- The gains used for the yaw-clamp evaluation: yaw P gain 1, all other
gains 0. -/
def c4Gains : Stabilizer.Gains :=
  { levelP := 0, gyroCyclicP := 0, gyroCyclicI := 0, gyroCyclicD := 0,
    gyroYawP := 1, gyroYawI := 0 }

/-- An uninitialized-member state carrying `c4Gains`, to be passed through
`Stabilizer.init`. -/
def c4PreState : Stabilizer.State :=
  { gains := c4Gains, lastGyro := fun _ => 9, gyroDelta1 := fun _ => 9,
    gyroDelta2 := fun _ => 9, errorGyroI := fun _ => 9,
    bigGyroRate := 9, maxArmingAngle := 9 }

/-- The stabilizer state right after `init`, with `M_PI` approximated as
3.14159. -/
def c4State : Stabilizer.State := Stabilizer.init (314159/100000) c4PreState

/-- A gyro sample rotating fast about yaw only: 10 rad/s. -/
def c4Gyro : Fin 3 → ℚ := fun i => if i = 2 then 10 else 0

/-! ## Helper lemmas -/

lemma Filter.abs_constrainAbs_le (v lim : ℚ) (h : 0 ≤ lim) :
    |Filter.constrainAbs v lim| ≤ lim := by
  unfold Filter.constrainAbs
  split
  · rw [abs_neg, abs_of_nonneg h]
  · split
    · rw [abs_of_nonneg h]
    · rename_i h1 h2
      rw [abs_le]
      constructor <;> linarith

lemma Stabilizer.castLE_zero (h : 2 ≤ 3) : Fin.castLE h (0 : Fin 2) = (0 : Fin 3) := rfl

lemma Stabilizer.castLE_one (h : 2 ≤ 3) : Fin.castLE h (1 : Fin 2) = (1 : Fin 3) := rfl

lemma Stabilizer.itermNew_abs_le (s : Stabilizer.State) (rateP rcCommand : ℚ)
    (gyro : Fin 3 → ℚ) (axis : Fin 3) :
    |Stabilizer.itermNew s rateP rcCommand gyro axis| ≤ Stabilizer.gyroWindupMax := by
  unfold Stabilizer.itermNew
  split
  · norm_num [Stabilizer.gyroWindupMax]
  · exact Filter.abs_constrainAbs_le _ _ (by norm_num [Stabilizer.gyroWindupMax])

lemma Stabilizer.itermNew_eq_zero (s : Stabilizer.State) (rateP rcCommand : ℚ)
    (gyro : Fin 3 → ℚ) (axis : Fin 3)
    (h : s.bigGyroRate < |gyro axis| ∨ (axis = 2 ∧ Stabilizer.bigYawDemand < |rcCommand|)) :
    Stabilizer.itermNew s rateP rcCommand gyro axis = 0 := by
  unfold Stabilizer.itermNew
  exact if_pos h

lemma Stabilizer.updateDemands_eGI_roll (s : Stabilizer.State) (e g : Fin 3 → ℚ)
    (d : Stabilizer.demands_t) :
    (Stabilizer.updateDemands s e g d).2.errorGyroI 0
      = Stabilizer.itermNew s s.gains.gyroCyclicP d.roll g 0 := rfl

lemma Stabilizer.updateDemands_eGI_pitch (s : Stabilizer.State) (e g : Fin 3 → ℚ)
    (d : Stabilizer.demands_t) :
    (Stabilizer.updateDemands s e g d).2.errorGyroI 1
      = Stabilizer.itermNew
          (Stabilizer.computeCyclicPid s d.roll (Stabilizer.cyclicProp d.roll d.pitch) e g 0).2
          s.gains.gyroCyclicP d.pitch g 1 := rfl

lemma Stabilizer.updateDemands_eGI_yaw (s : Stabilizer.State) (e g : Fin 3 → ℚ)
    (d : Stabilizer.demands_t) :
    (Stabilizer.updateDemands s e g d).2.errorGyroI 2
      = Stabilizer.itermNew
          (Stabilizer.computeCyclicPid
            (Stabilizer.computeCyclicPid s d.roll (Stabilizer.cyclicProp d.roll d.pitch) e g 0).2
            d.pitch (Stabilizer.cyclicProp d.roll d.pitch) e g 1).2
          s.gains.gyroYawP d.yaw g 2 := rfl

lemma Stabilizer.computeCyclicPid_bigGyroRate (s : Stabilizer.State) (rc prop : ℚ)
    (e g : Fin 3 → ℚ) (imuAxis : Fin 2) :
    (Stabilizer.computeCyclicPid s rc prop e g imuAxis).2.bigGyroRate = s.bigGyroRate := rfl

lemma Stabilizer.updateDemands_eGI_abs_le (s : Stabilizer.State) (e g : Fin 3 → ℚ)
    (d : Stabilizer.demands_t) (axis : Fin 3) :
    |(Stabilizer.updateDemands s e g d).2.errorGyroI axis| ≤ Stabilizer.gyroWindupMax := by
  fin_cases axis
  · show |(Stabilizer.updateDemands s e g d).2.errorGyroI 0| ≤ Stabilizer.gyroWindupMax
    rw [Stabilizer.updateDemands_eGI_roll]
    exact Stabilizer.itermNew_abs_le _ _ _ _ _
  · show |(Stabilizer.updateDemands s e g d).2.errorGyroI 1| ≤ Stabilizer.gyroWindupMax
    rw [Stabilizer.updateDemands_eGI_pitch]
    exact Stabilizer.itermNew_abs_le _ _ _ _ _
  · show |(Stabilizer.updateDemands s e g d).2.errorGyroI 2| ≤ Stabilizer.gyroWindupMax
    rw [Stabilizer.updateDemands_eGI_yaw]
    exact Stabilizer.itermNew_abs_le _ _ _ _ _

lemma Stabilizer.runUpdates_eGI_abs_le (l : List Stabilizer.Input) :
    ∀ (s : Stabilizer.State) (axis : Fin 3),
      |s.errorGyroI axis| ≤ Stabilizer.gyroWindupMax →
      |(Stabilizer.runUpdates s l).errorGyroI axis| ≤ Stabilizer.gyroWindupMax := by
  induction l with
  | nil => exact fun s axis h => h
  | cons i rest ih =>
      intro s axis h
      exact ih _ axis (Stabilizer.updateDemands_eGI_abs_le _ _ _ _ _)

lemma Stabilize.abs_constrain_le (v b : ℤ) (hb : 0 ≤ b) :
    |Stabilize.constrain v (-b) b| ≤ b := by
  unfold Stabilize.constrain
  split
  · rw [abs_neg, abs_of_nonneg hb]
  · split
    · rw [abs_of_nonneg hb]
    · rename_i h1 h2
      rw [abs_le]
      constructor <;> omega

lemma Stabilize.gyroINew_abs_le (s : Stabilize.State) (rc g : Fin 3 → ℤ) (axis : Fin 3) :
    |Stabilize.gyroINew s rc g axis| ≤ 16000 := by
  unfold Stabilize.gyroINew
  split
  · norm_num
  · exact Stabilize.abs_constrain_le _ _ (by norm_num)

lemma Stabilize.gyroINew_eq_zero (s : Stabilize.State) (rc g : Fin 3 → ℤ) (axis : Fin 3)
    (h : 640 < |g axis| ∨ (axis = 2 ∧ 100 < |rc axis|)) :
    Stabilize.gyroINew s rc g axis = 0 := by
  unfold Stabilize.gyroINew
  exact if_pos h

lemma Stabilize.update_eGI_roll (cfg : Stabilize.Config) (s : Stabilize.State)
    (rc g a : Fin 3 → ℤ) :
    (Stabilize.update cfg s rc g a).errorGyroI 0 = Stabilize.gyroINew s rc g 0 := rfl

lemma Stabilize.update_eGI_pitch (cfg : Stabilize.Config) (s : Stabilize.State)
    (rc g a : Fin 3 → ℤ) :
    (Stabilize.update cfg s rc g a).errorGyroI 1
      = Stabilize.gyroINew (Stabilize.axisUpdate cfg rc g a s 0) rc g 1 := rfl

lemma Stabilize.update_eGI_yaw (cfg : Stabilize.Config) (s : Stabilize.State)
    (rc g a : Fin 3 → ℤ) :
    (Stabilize.update cfg s rc g a).errorGyroI 2
      = Stabilize.gyroINew
          (Stabilize.axisUpdate cfg rc g a (Stabilize.axisUpdate cfg rc g a s 0) 1) rc g 2 := rfl

lemma Stabilize.update_eGI_abs_le (cfg : Stabilize.Config) (s : Stabilize.State)
    (rc g a : Fin 3 → ℤ) (axis : Fin 3) :
    |(Stabilize.update cfg s rc g a).errorGyroI axis| ≤ 16000 := by
  fin_cases axis
  · show |(Stabilize.update cfg s rc g a).errorGyroI 0| ≤ 16000
    rw [Stabilize.update_eGI_roll]
    exact Stabilize.gyroINew_abs_le _ _ _ _
  · show |(Stabilize.update cfg s rc g a).errorGyroI 1| ≤ 16000
    rw [Stabilize.update_eGI_pitch]
    exact Stabilize.gyroINew_abs_le _ _ _ _
  · show |(Stabilize.update cfg s rc g a).errorGyroI 2| ≤ 16000
    rw [Stabilize.update_eGI_yaw]
    exact Stabilize.gyroINew_abs_le _ _ _ _

lemma Stabilize.run_eGI_abs_le (cfg : Stabilize.Config) (l : List Stabilize.Input) :
    ∀ (s : Stabilize.State) (axis : Fin 3),
      |s.errorGyroI axis| ≤ 16000 →
      |(Stabilize.run cfg s l).errorGyroI axis| ≤ 16000 := by
  induction l with
  | nil => exact fun s axis h => h
  | cons i rest ih =>
      intro s axis h
      exact ih _ axis (Stabilize.update_eGI_abs_le _ _ _ _ _ _)

lemma imuTick_armed (cfg : Stabilize.Config) (lim : ℤ) (s : HState) (inp : ImuInput) :
    (imuTick cfg lim s inp).armed = s.armed := by
  simp only [imuTick]
  split
  · split <;> rfl
  · rfl

lemma hfUpdate_armed (cfg : Stabilize.Config) (lim : ℤ) (tc : ℕ) (s : HState)
    (rcDue : Bool) (rcIn : RcInput) (imuDue : Bool) (imuIn : ImuInput) :
    (hfUpdate cfg lim tc s rcDue rcIn imuDue imuIn).armed
      = if rcDue = true then (rcTick s rcIn).armed else s.armed := by
  cases rcDue <;> cases imuDue <;> simp [hfUpdate, imuTick_armed]

lemma rcTick_armed_of_armed (s : HState) (inp : RcInput) (h : s.armed = true) :
    (rcTick s inp).armed
      = if inp.changed = true ∧ inp.sticks = disarmSticks then false else true := by
  by_cases ht : inp.throttleIsDown = true <;> by_cases hc : inp.changed = true <;>
    by_cases hd : inp.sticks = disarmSticks <;>
    simp [rcTick, ht, hc, hd, h]

lemma rcTick_stab (s : HState) (inp : RcInput) :
    (rcTick s inp).stab
      = if inp.throttleIsDown = true then Stabilize.resetIntegral s.stab else s.stab := by
  by_cases ht : inp.throttleIsDown = true <;> by_cases hc : inp.changed = true <;>
    simp [rcTick, ht, hc] <;> (repeat' split) <;> rfl

/-! ## Claims -/

/-- C9: `resetIntegral` modifies only the integral accumulators — the
derivative-smoothing history (`lastGyro`, `delta1`/`gyroDelta1`,
`delta2`/`gyroDelta2`) and the gains are unchanged in both the
floating-point and fixed-point variants, while every integral accumulator
is zeroed. -/
theorem spec_C9 :
    (∀ s : Stabilizer.State,
       (Stabilizer.resetIntegral s).lastGyro = s.lastGyro ∧
       (Stabilizer.resetIntegral s).gyroDelta1 = s.gyroDelta1 ∧
       (Stabilizer.resetIntegral s).gyroDelta2 = s.gyroDelta2 ∧
       (Stabilizer.resetIntegral s).gains = s.gains ∧
       (Stabilizer.resetIntegral s).bigGyroRate = s.bigGyroRate ∧
       (Stabilizer.resetIntegral s).maxArmingAngle = s.maxArmingAngle ∧
       ∀ axis, (Stabilizer.resetIntegral s).errorGyroI axis = 0) ∧
    (∀ s : Stabilize.State,
       (Stabilize.resetIntegral s).lastGyro = s.lastGyro ∧
       (Stabilize.resetIntegral s).delta1 = s.delta1 ∧
       (Stabilize.resetIntegral s).delta2 = s.delta2 ∧
       (Stabilize.resetIntegral s).rate_p = s.rate_p ∧
       (Stabilize.resetIntegral s).rate_i = s.rate_i ∧
       (Stabilize.resetIntegral s).rate_d = s.rate_d ∧
       (Stabilize.resetIntegral s).axisPID = s.axisPID ∧
       (∀ axis, (Stabilize.resetIntegral s).errorGyroI axis = 0) ∧
       (∀ axis, (Stabilize.resetIntegral s).errorAngleI axis = 0)) :=
  ⟨fun _ => ⟨rfl, rfl, rfl, rfl, rfl, rfl, fun _ => rfl⟩,
   fun _ => ⟨rfl, rfl, rfl, rfl, rfl, rfl, rfl, fun _ => rfl, fun _ => rfl⟩⟩

/-- C1: for every sequence of update calls with arbitrary inputs starting
from an initialized engine, and for every axis, the magnitude of the
integral accumulator `errorGyroI[axis]` never exceeds the configured
windup bound at the end of any tick — bound `gyroWindupMax = 16` in the
floating-point variant and `16000` in the fixed-point variant. -/
theorem spec_C1 :
    (∀ (piApprox : ℚ) (s : Stabilizer.State) (l : List Stabilizer.Input) (axis : Fin 3),
       |(Stabilizer.runUpdates (Stabilizer.init piApprox s) l).errorGyroI axis|
         ≤ Stabilizer.gyroWindupMax) ∧
    (∀ (cfg : Stabilize.Config) (p i dGain yP yI : ℤ) (s : Stabilize.State)
       (l : List Stabilize.Input) (axis : Fin 3),
       |(Stabilize.run cfg (Stabilize.init p i dGain yP yI s) l).errorGyroI axis| ≤ 16000) := by
  constructor
  · intro piApprox s l axis
    apply Stabilizer.runUpdates_eGI_abs_le
    show |(0 : ℚ)| ≤ Stabilizer.gyroWindupMax
    norm_num [Stabilizer.gyroWindupMax]
  · intro cfg p i dGain yP yI s l axis
    apply Stabilize.run_eGI_abs_le
    show |(0 : ℤ)| ≤ 16000
    norm_num

/-- C6: for every update tick and every axis, if the measured angular rate
magnitude on that axis exceeds the big-rate threshold, or the axis is yaw
and the pilot yaw demand magnitude exceeds the big-yaw-demand threshold,
then `errorGyroI` for that axis is zero after the tick — in both the
floating-point and the fixed-point variant. -/
theorem spec_C6 :
    (∀ (s : Stabilizer.State) (e g : Fin 3 → ℚ) (d : Stabilizer.demands_t) (axis : Fin 3),
       (s.bigGyroRate < |g axis| ∨ (axis = 2 ∧ Stabilizer.bigYawDemand < |d.yaw|)) →
       (Stabilizer.updateDemands s e g d).2.errorGyroI axis = 0) ∧
    (∀ (cfg : Stabilize.Config) (s : Stabilize.State) (rc g a : Fin 3 → ℤ) (axis : Fin 3),
       (640 < |g axis| ∨ (axis = 2 ∧ 100 < |rc axis|)) →
       (Stabilize.update cfg s rc g a).errorGyroI axis = 0) := by
  constructor
  · intro s e g d axis h
    fin_cases axis
    · show (Stabilizer.updateDemands s e g d).2.errorGyroI 0 = 0
      rw [Stabilizer.updateDemands_eGI_roll]
      apply Stabilizer.itermNew_eq_zero
      rcases h with h | ⟨h2, _⟩
      · exact Or.inl h
      · exact absurd h2 (by decide)
    · show (Stabilizer.updateDemands s e g d).2.errorGyroI 1 = 0
      rw [Stabilizer.updateDemands_eGI_pitch]
      apply Stabilizer.itermNew_eq_zero
      rcases h with h | ⟨h2, _⟩
      · rw [Stabilizer.computeCyclicPid_bigGyroRate]
        exact Or.inl h
      · exact absurd h2 (by decide)
    · show (Stabilizer.updateDemands s e g d).2.errorGyroI 2 = 0
      rw [Stabilizer.updateDemands_eGI_yaw]
      apply Stabilizer.itermNew_eq_zero
      rcases h with h | ⟨_, h3⟩
      · rw [Stabilizer.computeCyclicPid_bigGyroRate, Stabilizer.computeCyclicPid_bigGyroRate]
        exact Or.inl h
      · exact Or.inr ⟨rfl, h3⟩
  · intro cfg s rc g a axis h
    fin_cases axis
    · show (Stabilize.update cfg s rc g a).errorGyroI 0 = 0
      rw [Stabilize.update_eGI_roll]
      apply Stabilize.gyroINew_eq_zero
      rcases h with h | ⟨h2, _⟩
      · exact Or.inl h
      · exact absurd h2 (by decide)
    · show (Stabilize.update cfg s rc g a).errorGyroI 1 = 0
      rw [Stabilize.update_eGI_pitch]
      apply Stabilize.gyroINew_eq_zero
      rcases h with h | ⟨h2, _⟩
      · exact Or.inl h
      · exact absurd h2 (by decide)
    · show (Stabilize.update cfg s rc g a).errorGyroI 2 = 0
      rw [Stabilize.update_eGI_yaw]
      exact Stabilize.gyroINew_eq_zero _ _ _ _ h

/-- C6 witness: concrete instances of both conjuncts.  Floating variant: a
yaw rate of 10 rad/s (above any realistic `bigGyroRate`; here the state is
`c4State`, whose threshold is about 0.698) zeroes `errorGyroI[yaw]`.
Fixed variant: a gyro reading of 700 > 640 on roll zeroes
`errorGyroI[roll]`. -/
theorem spec_C6_witness :
    (Stabilizer.updateDemands c4State (fun _ => 0) c4Gyro ⟨0, 0, 0⟩).2.errorGyroI 2 = 0 ∧
    (Stabilize.update sampleConfig sampleStabState (fun _ => 0) (fun _ => 700)
      (fun _ => 0)).errorGyroI 0 = 0 := by
  constructor
  · apply spec_C6.1
    left
    show c4State.bigGyroRate < |c4Gyro 2|
    norm_num [c4State, c4PreState, Stabilizer.init, Stabilizer.resetIntegral,
      Stabilizer.degreesToRadians, Stabilizer.bigGyroDegreesPerSecond, c4Gyro]
  · apply spec_C6.2
    left
    norm_num

/-- C8: initializing the floating-point stabilizer (with any gains and any
prior state) and immediately updating with all-zero demand, angles, and
angular rates returns an all-zero corrected demand. -/
theorem spec_C8 : ∀ (piApprox : ℚ) (s : Stabilizer.State),
    (Stabilizer.updateDemands (Stabilizer.init piApprox s) (fun _ => 0) (fun _ => 0)
      ⟨0, 0, 0⟩).1 = ⟨0, 0, 0⟩ := by
  intro piApprox s
  norm_num [Stabilizer.updateDemands, Stabilizer.computeCyclicPid, Stabilizer.computeITermGyro,
    Stabilizer.itermNew, Stabilizer.computePid, Stabilizer.cyclicProp, Stabilizer.init,
    Stabilizer.resetIntegral, Filter.max, Filter.complementary, Filter.constrainAbs,
    Stabilizer.gyroWindupMax, Stabilizer.bigYawDemand, Stabilizer.castLE_zero,
    Stabilizer.castLE_one, Function.update]

/-- C2: on a receiver tick carrying the arm gesture (with the gesture
changed from the previous tick) while disarmed, `armed` becomes true if
and only if the remaining guards hold simultaneously: the gyro calibration
countdown is zero, the accelerometer is calibrated, and the auxiliary
switch is neutral (the fourth guard — not already armed — is the `s.armed
= false` hypothesis); if any guard fails, `armed` stays false. -/
theorem spec_C2 : ∀ (s : HState) (inp : RcInput),
    inp.changed = true → inp.sticks = armSticks → s.armed = false →
    ((rcTick s inp).armed = true ↔
      (s.calibratingG = 0 ∧ s.accCalibrated = true ∧ inp.auxState = 0)) := by
  intro s inp hch hst har
  by_cases ht : inp.throttleIsDown = true <;>
    simp [rcTick, hch, hst, har, ht, armSticks, gyroCalSticks, accCalSticks, disarmSticks] <;>
    split <;> simp_all

/-- C2 witness: a disarmed state with all guards satisfied arms on the arm
gesture. -/
theorem spec_C2_witness :
    (rcTick sampleHState ⟨false, true, armSticks, 0⟩).armed = true :=
  (spec_C2 sampleHState ⟨false, true, armSticks, 0⟩ rfl rfl rfl).mpr ⟨rfl, rfl, rfl⟩

/-- C3: once `armed` is true it is cleared only by the explicit disarm
gesture — if an `update` call ends with `armed = false`, the receiver
branch ran and saw a changed gesture equal to the disarm gesture (never a
timeout, recalibration, or any other event); conversely the disarm
gesture, received (as a changed gesture on a due receiver tick) while
armed, always clears `armed` regardless of the calibration counters. -/
theorem spec_C3 :
    (∀ (cfg : Stabilize.Config) (lim : ℤ) (tc : ℕ) (s : HState) (rcDue : Bool)
       (rcIn : RcInput) (imuDue : Bool) (imuIn : ImuInput),
       s.armed = true →
       (hfUpdate cfg lim tc s rcDue rcIn imuDue imuIn).armed = false →
       rcDue = true ∧ rcIn.changed = true ∧ rcIn.sticks = disarmSticks) ∧
    (∀ (cfg : Stabilize.Config) (lim : ℤ) (tc : ℕ) (s : HState)
       (rcIn : RcInput) (imuDue : Bool) (imuIn : ImuInput),
       s.armed = true → rcIn.changed = true → rcIn.sticks = disarmSticks →
       (hfUpdate cfg lim tc s true rcIn imuDue imuIn).armed = false) := by
  constructor
  · intro cfg lim tc s rcDue rcIn imuDue imuIn hArm hFalse
    rw [hfUpdate_armed] at hFalse
    cases rcDue with
    | false =>
        rw [if_neg (by decide), hArm] at hFalse
        exact absurd hFalse (by decide)
    | true =>
        rw [if_pos rfl, rcTick_armed_of_armed _ _ hArm] at hFalse
        by_cases hcond : rcIn.changed = true ∧ rcIn.sticks = disarmSticks
        · exact ⟨rfl, hcond.1, hcond.2⟩
        · rw [if_neg hcond] at hFalse
          exact absurd hFalse (by decide)
  · intro cfg lim tc s rcIn imuDue imuIn hArm hch hst
    rw [hfUpdate_armed, if_pos rfl, rcTick_armed_of_armed _ _ hArm]
    rw [if_pos ⟨hch, hst⟩]

/-- C3 witness: with a concrete armed state and the concrete disarm input,
both directions instantiate — the update that disarmed it did run the
receiver branch with the changed disarm gesture, and the disarm gesture
clears `armed`. -/
theorem spec_C3_witness :
    (true = true ∧ (⟨false, true, disarmSticks, 0⟩ : RcInput).changed = true ∧
      (⟨false, true, disarmSticks, 0⟩ : RcInput).sticks = disarmSticks) ∧
    (hfUpdate sampleConfig 250 0 sampleArmedHState true ⟨false, true, disarmSticks, 0⟩
      false sampleImuInput).armed = false := by
  constructor
  · exact spec_C3.1 sampleConfig 250 0 sampleArmedHState true ⟨false, true, disarmSticks, 0⟩
      false sampleImuInput rfl rfl
  · exact spec_C3.2 sampleConfig 250 0 sampleArmedHState ⟨false, true, disarmSticks, 0⟩
      false sampleImuInput rfl rfl rfl

/-- C5: on every receiver tick on which the measured throttle is down
(at or below the idle threshold, as reported by the receiver's
`throttleIsDown()`), the integral is reset unconditionally — independent
of the gesture, of whether the gesture changed, and of the armed state —
and `errorGyroI` is zero on all three axes at the end of the receiver
tick, regardless of the previously accumulated value. -/
theorem spec_C5 : ∀ (s : HState) (inp : RcInput), inp.throttleIsDown = true →
    ∀ axis, (rcTick s inp).stab.errorGyroI axis = 0 := by
  intro s inp ht axis
  rw [rcTick_stab, if_pos ht]
  rfl

/-- C5 witness: a throttle-down receiver tick (with an unchanged gesture)
zeroes the accumulated `errorGyroI = 7` of the sample state on every
axis. -/
theorem spec_C5_witness :
    (rcTick sampleHState ⟨true, false, armSticks, 1⟩).stab.errorGyroI 0 = 0 ∧
    (rcTick sampleHState ⟨true, false, armSticks, 1⟩).stab.errorGyroI 1 = 0 ∧
    (rcTick sampleHState ⟨true, false, armSticks, 1⟩).stab.errorGyroI 2 = 0 :=
  ⟨spec_C5 sampleHState ⟨true, false, armSticks, 1⟩ rfl 0,
   spec_C5 sampleHState ⟨true, false, armSticks, 1⟩ rfl 1,
   spec_C5 sampleHState ⟨true, false, armSticks, 1⟩ rfl 2⟩

/-- C4 (failing evaluation): in the floating-point variant the yaw "jump"
clamp computes its bound from the already-overwritten `demands.yaw`
(part_001 line 165), so it never constrains anything.  With yaw P gain 1,
a zero pilot yaw demand and a 10 rad/s yaw rate, the returned yaw is -10,
whose magnitude exceeds the claimed bound `baseBound + |demand.yaw| =
0.1 + 0` — the bound the source comments and the spec intend (and which
the fixed-point variant enforces against the unmodified input command). -/
theorem spec_C4_eval :
    (Stabilizer.updateDemands c4State (fun _ => 0) c4Gyro ⟨0, 0, 0⟩).1.yaw = -10 ∧
    ¬(|(Stabilizer.updateDemands c4State (fun _ => 0) c4Gyro ⟨0, 0, 0⟩).1.yaw|
        ≤ 1/10 + |(0 : ℚ)|) := by
  norm_num [Stabilizer.updateDemands, Stabilizer.computeCyclicPid, Stabilizer.computeITermGyro,
    Stabilizer.itermNew, Stabilizer.computePid, Stabilizer.cyclicProp, Filter.max,
    Filter.complementary, Filter.constrainAbs, Stabilizer.init, Stabilizer.resetIntegral,
    Stabilizer.degreesToRadians, Stabilizer.gyroWindupMax, Stabilizer.bigYawDemand,
    Stabilizer.bigGyroDegreesPerSecond, c4State, c4PreState, c4Gains, c4Gyro,
    Stabilizer.castLE_zero, Stabilizer.castLE_one, Function.update]

/-- C7 counterexample: the claim says the blend proportion is
`max(|roll|, |pitch|) / deadbandNorm` *clamped to [0,1]*; at full roll
deflection (roll demand 1, a legal normalized demand) the source computes
proportion 2, not the clamped value 1 — the source applies no clamp
(part_001 line 154). -/
theorem spec_C7_counterexample :
    Stabilizer.cyclicProp 1 0 = 2 ∧ Stabilizer.cyclicPropSpec 1 0 = 1 ∧
    ¬ Stabilizer.cyclicProp 1 0 = Stabilizer.cyclicPropSpec 1 0 := by
  norm_num [Stabilizer.cyclicProp, Stabilizer.cyclicPropSpec, Filter.max]

/-- C7 (amended): the blend proportion is `max(|roll|, |pitch|) /
deadbandNorm` with no clamping — it agrees with the claim's clamped form
whenever the larger cyclic deflection is at most the deadband norm 0.5;
and the blended proportional term (the complementary blend of the pilot
command with the angle-leveling term, as formed in `computeCyclicPid`)
equals the pure angle-leveling term `(demand − measuredAngle)·levelGain`
at proportion 0, and the pure rate proportional term (the pilot command,
before the common `gyro·rateP` subtraction) at proportion 1. -/
theorem spec_C7 :
    (∀ r p : ℚ, |r| ≤ 1/2 → |p| ≤ 1/2 →
       Stabilizer.cyclicProp r p = Stabilizer.cyclicPropSpec r p) ∧
    (∀ rc angle levelP : ℚ,
       Filter.complementary rc ((rc - angle) * levelP) 0 = (rc - angle) * levelP) ∧
    (∀ rc angle levelP : ℚ,
       Filter.complementary rc ((rc - angle) * levelP) 1 = rc) := by
  refine ⟨?_, ?_, ?_⟩
  · intro r p hr hp
    have hm : Filter.max |r| |p| ≤ 1/2 := by
      unfold Filter.max
      split <;> assumption
    have hm0 : 0 ≤ Filter.max |r| |p| := by
      unfold Filter.max
      split
      · exact abs_nonneg r
      · exact abs_nonneg p
    unfold Stabilizer.cyclicProp Stabilizer.cyclicPropSpec
    rw [max_eq_right (div_nonneg hm0 (by norm_num)),
        min_eq_right ((div_le_one (by norm_num)).mpr hm)]
  · intro rc angle levelP
    unfold Filter.complementary
    ring
  · intro rc angle levelP
    unfold Filter.complementary
    ring

/-- C7 witness: at quarter roll deflection the code's proportion equals
the clamped form; the blend endpoints evaluate on concrete values. -/
theorem spec_C7_witness :
    Stabilizer.cyclicProp (1/4) 0 = Stabilizer.cyclicPropSpec (1/4) 0 ∧
    Filter.complementary 5 ((5 - 3) * 2) 0 = (5 - 3) * 2 ∧
    Filter.complementary 5 ((5 - 3) * 2) 1 = 5 :=
  ⟨spec_C7.1 (1/4) 0 (by norm_num [abs_of_nonneg]) (by norm_num),
   spec_C7.2.1 5 3 2,
   spec_C7.2.2 5 3 2⟩

/-- C10: the simulator receiver's `disarming()` returns false on every
call (and does not modify the controller state), so stick input from the
simulator controller never disarms an armed vehicle. -/
theorem spec_C10 : ∀ s : Controller.State,
    (Controller.disarming s).1 = false ∧ (Controller.disarming s).2 = s :=
  fun _ => ⟨rfl, rfl⟩

end Hackflight
